import Mathlib

/-!
Verification of the zkp-pong deterministic engine and log validator.

This file is a shallow embedding, in Lean 4, of the validated core of the
zkp-pong repository:

- src/pong/fixed.ts      : Q16.16 fixed-point arithmetic on JavaScript
                           BigInt values, the reflective modulo reflect1D,
                           the 8-iteration integer CORDIC, clampPaddleY;
- src/pong/commitment.ts : SHA-256 commitments over
                           seed (32 bytes) || LE32(index) || LE64(paddleY),
                           hex encoding and decoding;
- src/pong/constants.ts  : the game constants;
- src/pong/engine.ts     : the validator validateLog (pre-flight checks,
                           commitment verification, replay loop, final
                           score checks) and the producer serve-index
                           bookkeeping of runGame.step.

JavaScript BigInt semantics used by the source are modelled on Int:
the shift a >> n is the floor shift (Int.fdiv by 2^n), a / b truncates
toward zero (Int.tdiv), and a % b is the truncated remainder carrying the
sign of the dividend (Int.tmod).  JavaScript Number values reaching the
validated path are integral (constants, loop counters) except in the hit
test and time round-trips of validateLog, which are modelled exactly over
the rationals (fromFixedQ, toFixedQ, hitTestCode below); all such values
are dyadic rationals that IEEE doubles represent exactly at the magnitudes
the game produces.

Exceptions thrown by the source (invalid hex seeds, BigInt parse failures,
BigInt division by zero) are modelled with Except and caught by the
top-level validateLog, mirroring the try/catch of engine.ts.
-/

namespace Pong

/-! Section 1: JS BigInt primitives and Q16.16 fixed point (fixed.ts). -/

/-- Arithmetic (floor) right shift of a BigInt, as in JavaScript a >> n. -/
def jsShr (a : Int) (n : Nat) : Int := Int.fdiv a ((2:Int)^n)

/-- FRAC_BITS of fixed.ts (Q16.16). -/
def FRAC_BITS : Nat := 16

/-- iMul of fixed.ts: (a * b) >> 16. -/
def iMul (a b : Int) : Int := jsShr (a * b) FRAC_BITS

/-- iDiv of fixed.ts: (a << 16) / b with BigInt division (truncation toward zero).
JavaScript throws for b = 0; callers on the validated path either guard or
run inside the try/catch modelled in replayGo below. -/
def iDiv (a b : Int) : Int := Int.tdiv (a * 65536) b

/-- iAbs of fixed.ts. -/
def iAbs (a : Int) : Int := if a < 0 then -a else a

/-- iMin of fixed.ts. -/
def iMin (a b : Int) : Int := if a < b then a else b

/-- iMax of fixed.ts. -/
def iMax (a b : Int) : Int := if a > b then a else b

/-- The double truncated-modulo idiom of fixed.ts reflect1D:
((y % period) + period) % period with JavaScript BigInt %. -/
def jsEmod (y p : Int) : Int := Int.tmod (Int.tmod y p + p) p

/-- toFixedInt of fixed.ts: BigInt(n) << 16 (exact). -/
def toFixedInt (n : Int) : Int := n * 65536

/-- clampPaddleY of fixed.ts: max(half, min(height - half, y)). -/
def clampPaddleY (y half height : Int) : Int := iMax half (iMin (height - half) y)

/-- reflect1D of fixed.ts (Q16.16): analytic position under elastic
reflection on [minY, maxY], with the double-% Euclidean correction. -/
def reflect1D (y0 vy dt minY maxY : Int) : Int :=
  let span := maxY - minY
  if span ≤ 0 then y0
  else
    let period := span * 2
    let y := y0 + iMul vy dt - minY
    let y2 := jsEmod y period
    if y2 > span then maxY - (y2 - span) else minY + y2

/-- Spec 4.1 wording of the reflective modulo: the same algorithm written
with the mathematical Euclidean modulo ((y mod p) + p) mod p, i.e. Int.emod.
Used to compare the source's double-truncated-% against the spec. -/
def reflect1DSpec (y0 vy dt minY maxY : Int) : Int :=
  let span := maxY - minY
  if span ≤ 0 then y0
  else
    let y := (y0 + iMul vy dt - minY).emod (2 * span)
    if y > span then maxY - (y - span) else minY + y

/-- PI_Q16 of fixed.ts. -/
def PI_Q16 : Int := 205887

/-- degToRadFixed of fixed.ts: integer-only deg * PI_Q16 / 180. -/
def degToRadFixed (d : Int) : Int := iDiv (iMul (toFixedInt d) PI_Q16) (toFixedInt 180)

/-- Hardcoded CORDIC atan table of fixed.ts (Q16.16). -/
def ATAN_Q16 : List Int := [51472, 30386, 16055, 8150, 4091, 2047, 1024, 512]

/-- Hardcoded CORDIC gain constant of fixed.ts. -/
def K_Q16 : Int := 39797

/-- Result record of cordicSinCos. -/
structure SinCos where
  sin : Int
  cos : Int
deriving Repr, DecidableEq

/-- One CORDIC iteration of fixed.ts cordicSinCos on the state (x, y, z). -/
def cordicStep (i : Nat) (s : Int × Int × Int) : Int × Int × Int :=
  let x := s.1
  let y := s.2.1
  let z := s.2.2
  let di : Int := if 0 ≤ z then 1 else -1
  (x - di * jsShr y i, y + di * jsShr x i, z - di * (ATAN_Q16.getD i 0))

/-- cordicSinCos of fixed.ts: 8 pure-integer CORDIC iterations from
(K_Q16, 0, angle); returns (sin, cos) = (y, x). -/
def cordicSinCos (angle : Int) : SinCos :=
  let s := (List.range 8).foldl (fun st i => cordicStep i st) (K_Q16, 0, angle)
  ⟨s.2.1, s.1⟩

/-! Section 2: SHA-256 over byte lists (the crypto.subtle.digest call of
commitment.ts), bytes are Nat values below 256. -/

/-- 2^32, the word modulus of SHA-256. -/
def m32 : Nat := 4294967296

/-- Rotate a 32-bit word right by n. -/
def rotr (n x : Nat) : Nat := ((x >>> n) ||| (x <<< (32 - n))) % m32

/-- SHA-256 initial hash words. -/
def sha256H0 : List Nat :=
  [1779033703, 3144134277, 1013904242, 2773480762,
   1359893119, 2600822924, 528734635, 1541459225]

/-- SHA-256 round constants. -/
def sha256K : List Nat :=
  [1116352408, 1899447441, 3049323471, 3921009573, 961987163, 1508970993,
   2453635748, 2870763221, 3624381080, 310598401, 607225278, 1426881987,
   1925078388, 2162078206, 2614888103, 3248222580, 3835390401, 4022224774,
   264347078, 604807628, 770255983, 1249150122, 1555081692, 1996064986,
   2554220882, 2821834349, 2952996808, 3210313671, 3336571891, 3584528711,
   113926993, 338241895, 666307205, 773529912, 1294757372, 1396182291,
   1695183700, 1986661051, 2177026350, 2456956037, 2730485921, 2820302411,
   3259730800, 3345764771, 3516065817, 3600352804, 4094571909, 275423344,
   430227734, 506948616, 659060556, 883997877, 958139571, 1322822218,
   1537002063, 1747873779, 1955562222, 2024104815, 2227730452, 2361852424,
   2428436474, 2756734187, 3204031479, 3329325298]

/-- Big-endian bytes of a 32-bit word. -/
def be32 (n : Nat) : List Nat := [(n >>> 24) % 256, (n >>> 16) % 256, (n >>> 8) % 256, n % 256]

/-- Big-endian bytes of the 64-bit bit-length field. -/
def be64 (n : Nat) : List Nat :=
  [(n >>> 56) % 256, (n >>> 48) % 256, (n >>> 40) % 256, (n >>> 32) % 256,
   (n >>> 24) % 256, (n >>> 16) % 256, (n >>> 8) % 256, n % 256]

/-- SHA-256 padding: 0x80, zeros to 56 mod 64, then the bit length. -/
def sha256pad (msg : List Nat) : List Nat :=
  let len := msg.length
  let zeros := (119 - len % 64) % 64
  msg ++ [0x80] ++ List.replicate zeros 0 ++ be64 (len * 8)

/-- Group bytes into big-endian 32-bit words. -/
def toWordsBE : List Nat → List Nat
  | a :: b :: c :: d :: t => (a * 16777216 + b * 65536 + c * 256 + d) :: toWordsBE t
  | _ => []

/-- Split a byte list into 64-byte blocks; the fuel argument (the list
length at the top call) bounds the number of blocks so the recursion is
structural and reduces definitionally. -/
def chunk64F : Nat → List Nat → List (List Nat)
  | _, [] => []
  | 0, _ :: _ => []
  | n + 1, a :: t => ((a :: t).take 64) :: chunk64F n ((a :: t).drop 64)

/-- Split a byte list into 64-byte blocks. -/
def chunk64 (l : List Nat) : List (List Nat) := chunk64F l.length l

/-- Extend the 16-word block to the 64-word message schedule; the fuel
argument counts the 48 remaining words. -/
def sha256scheduleGo : Nat → List Nat → List Nat
  | 0, w => w
  | n + 1, w =>
    let t := w.length
    let x15 := w.getD (t - 15) 0
    let x2 := w.getD (t - 2) 0
    let s0 := (rotr 7 x15) ^^^ (rotr 18 x15) ^^^ (x15 >>> 3)
    let s1 := (rotr 17 x2) ^^^ (rotr 19 x2) ^^^ (x2 >>> 10)
    sha256scheduleGo n (w ++ [(w.getD (t - 16) 0 + s0 + w.getD (t - 7) 0 + s1) % m32])

/-- The eight working variables of the SHA-256 compression loop. -/
structure HS where
  a : Nat
  b : Nat
  c : Nat
  d : Nat
  e : Nat
  f : Nat
  g : Nat
  h : Nat

/-- One SHA-256 compression round; kw pairs the round constant with the
scheduled word. -/
def shaStep (st : HS) (kw : Nat × Nat) : HS :=
  let S1 := (rotr 6 st.e) ^^^ (rotr 11 st.e) ^^^ (rotr 25 st.e)
  let ch := (st.e &&& st.f) ^^^ ((st.e ^^^ 4294967295) &&& st.g)
  let temp1 := (st.h + S1 + ch + kw.1 + kw.2) % m32
  let S0 := (rotr 2 st.a) ^^^ (rotr 13 st.a) ^^^ (rotr 22 st.a)
  let maj := (st.a &&& st.b) ^^^ (st.a &&& st.c) ^^^ (st.b &&& st.c)
  let temp2 := (S0 + maj) % m32
  ⟨(temp1 + temp2) % m32, st.a, st.b, st.c, (st.d + temp1) % m32, st.e, st.f, st.g⟩

/-- Compress one 16-word block into the hash state. -/
def sha256compress (hs : List Nat) (block16 : List Nat) : List Nat :=
  let w := sha256scheduleGo 48 block16
  let init : HS := ⟨hs.getD 0 0, hs.getD 1 0, hs.getD 2 0, hs.getD 3 0,
                    hs.getD 4 0, hs.getD 5 0, hs.getD 6 0, hs.getD 7 0⟩
  let st := (sha256K.zip w).foldl shaStep init
  [(hs.getD 0 0 + st.a) % m32, (hs.getD 1 0 + st.b) % m32, (hs.getD 2 0 + st.c) % m32,
   (hs.getD 3 0 + st.d) % m32, (hs.getD 4 0 + st.e) % m32, (hs.getD 5 0 + st.f) % m32,
   (hs.getD 6 0 + st.g) % m32, (hs.getD 7 0 + st.h) % m32]

/-- SHA-256 of a byte list, as a list of 32 bytes. -/
def sha256 (msg : List Nat) : List Nat :=
  (((chunk64 (sha256pad msg)).map toWordsBE).foldl sha256compress sha256H0).flatMap be32

/-! Section 3: hex encoding and decoding, BigInt parsing (commitment.ts). -/

/-- Lowercase hex digit, as produced by toString(16) in bytesToHex. -/
def hexChar (n : Nat) : Char := if n < 10 then Char.ofNat (48 + n) else Char.ofNat (87 + n)

/-- bytesToHex of commitment.ts: lowercase, two fixed-width digits a byte. -/
def bytesToHex (bs : List Nat) : String := ⟨bs.flatMap (fun b => [hexChar (b / 16), hexChar (b % 16)])⟩

/-- Value of one hex digit, accepting both cases as the regex of
hexToBytes does. -/
def hexDigitVal? (c : Char) : Option Nat :=
  if 48 ≤ c.toNat ∧ c.toNat ≤ 57 then some (c.toNat - 48)
  else if 97 ≤ c.toNat ∧ c.toNat ≤ 102 then some (c.toNat - 87)
  else if 65 ≤ c.toNat ∧ c.toNat ≤ 70 then some (c.toNat - 55)
  else none

/-- Decode consecutive hex digit pairs into bytes. -/
def hexPairs : List Char → List Nat
  | a :: b :: t => ((hexDigitVal? a).getD 0 * 16 + (hexDigitVal? b).getD 0) :: hexPairs t
  | _ => []

/-- hexToBytes of commitment.ts; the thrown Error objects become
Except.error values, caught by validateLog. -/
def hexToBytes (hex : String) : Except String (List Nat) :=
  if hex.length % 2 ≠ 0 then .error "Invalid hex string: odd length"
  else if hex.data.any (fun c => (hexDigitVal? c).isNone) then
    .error "Invalid hex string: contains non-hexadecimal characters"
  else .ok (hexPairs hex.data)

/-- Digits of a decimal numeral, or none when empty or non-numeric. -/
def decDigits? : List Char → Option Nat
  | [] => none
  | cs => cs.foldl (fun acc c =>
      acc.bind fun n => if 48 ≤ c.toNat ∧ c.toNat ≤ 57 then some (n * 10 + (c.toNat - 48)) else none)
      (some 0)

/-- The BigInt(string) constructor on the decimal forms the log uses:
empty gives 0n, an optional sign followed by digits gives the value, and
anything else throws (none).  Whitespace and radix-prefixed forms, which
never occur in logs, are not modelled. -/
def parseBigInt? (s : String) : Option Int :=
  match s.data with
  | [] => some 0
  | '+' :: rest => (decDigits? rest).map Int.ofNat
  | '-' :: rest => (decDigits? rest).map (fun n => -(n : Int))
  | cs => (decDigits? cs).map Int.ofNat

/-- Little-endian u32 bytes, as DataView.setUint32(_, n, true). -/
def le32 (n : Nat) : List Nat := [n % 256, n / 256 % 256, n / 65536 % 256, n / 16777216 % 256]

/-- Little-endian two's-complement i64 bytes, as
DataView.setBigInt64(_, y, true). -/
def le64 (y : Int) : List Nat :=
  let m := (y.emod 18446744073709551616).toNat
  [m % 256, m / 256 % 256, m / 65536 % 256, m / 16777216 % 256,
   m / 4294967296 % 256, m / 1099511627776 % 256, m / 281474976710656 % 256,
   m / 72057594037927936 % 256]

/-- computeCommitment of commitment.ts: hex of SHA-256 over the 44-byte
buffer seed (32) || LE32(eventIndex) || LE64(paddleY).  The source takes
paddleY as a decimal string and converts with BigInt; callers here parse
first, which is equivalent on parseable strings. -/
def computeCommitment (seed : List Nat) (eventIndex : Nat) (paddleY : Int) : String :=
  bytesToHex (sha256 (seed ++ le32 eventIndex ++ le64 paddleY))

/-! Section 4: constants.ts. -/

def WIDTH : Int := 800
def HEIGHT : Int := 480
def PADDLE_HEIGHT : Int := 80
def PADDLE_WIDTH : Int := 10
def PADDLE_MARGIN : Int := 16
def BALL_RADIUS : Int := 6
def PADDLE_MAX_SPEED : Int := 200
def SERVE_SPEED : Int := 500
def SPEED_INCREMENT : Int := 50
def MAX_BOUNCE_ANGLE_DEG : Int := 60
def POINTS_TO_WIN : Nat := 3
def ANGLE_RANGE : Int := MAX_BOUNCE_ANGLE_DEG * 2 + 1
def SERVE_ANGLE_MULTIPLIER : Int := 37
def INITIAL_SERVE_DIRECTION : Int := 1
def MAX_EVENTS : Nat := 10000

/-! The Q16.16 constants computed by validateLog at entry.  toFixed of an
integer-valued double is exact, so these equal toFixedInt of the pixel
constants. -/

def widthI : Int := toFixedInt WIDTH
def heightI : Int := toFixedInt HEIGHT
def ballRadiusI : Int := toFixedInt BALL_RADIUS
def paddleHeightI : Int := toFixedInt PADDLE_HEIGHT
def paddleWidthI : Int := toFixedInt PADDLE_WIDTH
def paddleMarginI : Int := toFixedInt PADDLE_MARGIN
def paddleMaxSpeedI : Int := toFixedInt PADDLE_MAX_SPEED
def serveSpeedI : Int := toFixedInt SERVE_SPEED
def speedIncrementI : Int := toFixedInt SPEED_INCREMENT
def maxBounceAngleI : Int := degToRadFixed MAX_BOUNCE_ANGLE_DEG
def yMinI : Int := ballRadiusI
def yMaxI : Int := heightI - ballRadiusI
def leftFaceI : Int := paddleMarginI + paddleWidthI
def rightFaceI : Int := widthI - (paddleMarginI + paddleWidthI)

/-! Section 5: the validator data model (engine.ts). -/

/-- FixState of engine.ts; dir is -1 or +1. -/
structure FixState where
  t0 : Int
  x : Int
  y : Int
  vx : Int
  vy : Int
  speed : Int
  leftY : Int
  rightY : Int
  dir : Int
deriving Repr, DecidableEq

/-- ValidateResult of engine.ts. -/
structure ValidateResult where
  fair : Bool
  reason : Option String
  leftScore : Nat
  rightScore : Nat
deriving Repr, DecidableEq

/-- CompactLog of engine.ts.  Event entries are kept as their decimal
string form (the NumberLike strings every produced log contains); the
seeds stay hex strings so that malformed inputs are representable. -/
structure CompactLog where
  v : Nat
  game_id : Int
  events : List String
  commitments : List String
  player_left_seed : String
  player_right_seed : String
deriving Repr

/-- ToInt32 conversion, the JavaScript (x | 0) wrap used in serve. -/
def toInt32 (n : Int) : Int :=
  let m := n.emod 4294967296
  if m < 2147483648 then m else m - 4294967296

/-- The serve closure of validateLog (engine.ts lines 860-880): the
deterministic serve angle from (volleyCount + gameId) | 0, converted with
the integer-only degToRadFixed, applied through CORDIC.  tStartQ is the
Q16.16 value of the tStart argument (the source's toFixed(tStart) with the
exact fromFixed round-trip of state.t0). -/
def serveValidator (gameId receiverDir tStartQ volley : Int) : FixState :=
  let entropyMix := toInt32 (volley + gameId)
  let angleRaw := Int.tmod (Int.tmod (toInt32 (entropyMix * SERVE_ANGLE_MULTIPLIER)) ANGLE_RANGE
    + ANGLE_RANGE) ANGLE_RANGE - MAX_BOUNCE_ANGLE_DEG
  let angleI := degToRadFixed angleRaw
  let sc := cordicSinCos angleI
  { t0 := tStartQ
    x := iDiv widthI (toFixedInt 2)
    y := iDiv heightI (toFixedInt 2)
    vx := iMul serveSpeedI (iMul sc.cos (toFixedInt receiverDir))
    vy := iMul serveSpeedI sc.sin
    speed := serveSpeedI
    leftY := iDiv heightI (toFixedInt 2)
    rightY := iDiv heightI (toFixedInt 2)
    dir := receiverDir }

/-- The serveFixed closure of the producer runGame (engine.ts lines
138-158); its body is the same algorithm as the validator's serve. -/
def serveFixed (gameId receiverDir tStartQ volley : Int) : FixState :=
  let entropyMix := toInt32 (volley + gameId)
  let angleRaw := Int.tmod (Int.tmod (toInt32 (entropyMix * SERVE_ANGLE_MULTIPLIER)) ANGLE_RANGE
    + ANGLE_RANGE) ANGLE_RANGE - MAX_BOUNCE_ANGLE_DEG
  let angleI := degToRadFixed angleRaw
  let sc := cordicSinCos angleI
  { t0 := tStartQ
    x := iDiv widthI (toFixedInt 2)
    y := iDiv heightI (toFixedInt 2)
    vx := iMul serveSpeedI (iMul sc.cos (toFixedInt receiverDir))
    vy := iMul serveSpeedI sc.sin
    speed := serveSpeedI
    leftY := iDiv heightI (toFixedInt 2)
    rightY := iDiv heightI (toFixedInt 2)
    dir := receiverDir }

/-- Flat entry count of the producer's log after n events: runGame.step
pushes leftY then rightY, two entries per event. -/
def producerEventsLenAfter : Nat → Nat
  | 0 => 0
  | i + 1 => producerEventsLenAfter i + 2

/-- The validator's processedEvents counter after n loop iterations:
incremented by 2 at the top of each replay iteration. -/
def validatorProcessedEvents : Nat → Nat
  | 0 => 0
  | i + 1 => validatorProcessedEvents i + 2

/-- timeToPaddle of validateLog: (targetX - x) / vx in Q16.16; the caller
guards vx = 0 (JavaScript BigInt division by zero throws). -/
def timeToPaddle (st : FixState) : Int :=
  iDiv ((if st.dir < 0 then leftFaceI + ballRadiusI else rightFaceI - ballRadiusI) - st.x) st.vx

/-- fromFixed of fixed.ts modelled exactly: Number(x) / 2^16 as a
rational.  On the magnitudes the validator produces the double is exact. -/
def fromFixedQ (x : Int) : Rat := (x : Rat) / 65536

/-- toFixed of fixed.ts modelled exactly: round(n * 2^16). -/
def toFixedQ (q : Rat) : Int := round (q * 65536)

/-- The hit test of validateLog (engine.ts line 966), exactly as written:
Math.abs(fromFixed(logged) - yAtHit) <= PADDLE_HEIGHT/2 + BALL_RADIUS on
the converted values, with the doubles modelled as exact rationals. -/
def hitTestCode (loggedY yAtHit : Int) : Bool :=
  decide (|fromFixedQ loggedY - fromFixedQ yAtHit| ≤ (40 : Rat) + 6)

/-- The same hit decision as a pure Q16.16 integer comparison:
|logged - yAtHit| <= (PADDLE_HEIGHT/2 + BALL_RADIUS) << 16.  The theorem
C7_hit_decision_exact proves it pointwise equal to hitTestCode, so the
replay below uses this integer form, which the kernel can evaluate. -/
def hitTestInt (loggedY yAtHit : Int) : Bool :=
  decide (iAbs (loggedY - yAtHit) ≤ (40 + 6) * 65536)

/-- The final score checks of validateLog (engine.ts lines 1006-1021). -/
def finalCheck (lS rS : Nat) : ValidateResult :=
  if lS ≠ POINTS_TO_WIN ∧ rS ≠ POINTS_TO_WIN then
    ⟨false, some "Invalid final score - neither player reached POINTS_TO_WIN", lS, rS⟩
  else if lS > POINTS_TO_WIN ∨ rS > POINTS_TO_WIN then
    ⟨false, some "Invalid final score - game continued beyond POINTS_TO_WIN", lS, rS⟩
  else if lS = rS then ⟨false, some "Game ended in a tie - invalid game", lS, rS⟩
  else ⟨true, none, lS, rS⟩

/-- The JSON.stringify detail of the Paddle-moved-too-fast rejection. -/
def jsonDetail (idx : Nat) (which : String) (dt maxDelta dL dR prevL prevR lI rI : Int) : String :=
  "\x7b\"idx\":" ++ toString idx ++ ",\"which\":\"" ++ which ++ "\",\"dt\":\"" ++ toString dt ++
  "\",\"maxDelta\":\"" ++ toString maxDelta ++ "\",\"dL\":\"" ++ toString dL ++ "\",\"dR\":\"" ++
  toString dR ++ "\",\"prevLeft\":\"" ++ toString prevL ++ "\",\"prevRight\":\"" ++ toString prevR ++
  "\",\"loggedL\":\"" ++ toString lI ++ "\",\"loggedR\":\"" ++ toString rI ++ "\"\x7d"

/-- The replay loop of validateLog (engine.ts lines 907-1004) over the
event pairs.  Each iteration: increment processedEvents, compute
dt = timeToPaddle (division by vx = 0 throws), require dt > 0, compute the
ball y by reflection, check reachability and bounds of both logged
paddles, decide hit or miss, advance the state; a hit applies the bounce
transform, a miss scores and serves toward the scorer with
volleyCount = processedEvents; the loop ends at a terminal score or when
the pairs run out, then the final score checks run. -/
def replayGo (gameId : Int) (st : FixState) (lS rS : Nat) (eventIdx pe : Nat) :
    List (Int × Int) → Except String ValidateResult
  | [] => .ok (finalCheck lS rS)
  | (lI, rI) :: rest =>
    let pe2 := pe + 2
    if st.vx = 0 then .error "Division by zero" else
    let dt := timeToPaddle st
    if ¬ dt > 0 then .ok ⟨false, some "Invalid kinematics", lS, rS⟩ else
    let tHit := st.t0 + dt
    let yAtHit := reflect1D st.y st.vy dt yMinI yMaxI
    let movingLeft := st.dir < 0
    let maxDelta := iMul paddleMaxSpeedI dt
    let dL := iAbs (lI - st.leftY)
    let dR := iAbs (rI - st.rightY)
    if dL > maxDelta ∨ dR > maxDelta then
      .ok ⟨false, some ("Paddle moved too fast " ++
        jsonDetail eventIdx (if dL > maxDelta then "LEFT" else "RIGHT")
          dt maxDelta dL dR st.leftY st.rightY lI rI), lS, rS⟩
    else
    let halfI2 := iDiv paddleHeightI (toFixedInt 2)
    if clampPaddleY lI halfI2 heightI ≠ lI ∨ clampPaddleY rI halfI2 heightI ≠ rI then
      .ok ⟨false, some "Paddle out of bounds", lS, rS⟩
    else
    let hit := hitTestInt (if movingLeft then lI else rI) yAtHit
    let st2 : FixState := { st with
      x := if movingLeft then leftFaceI + ballRadiusI else rightFaceI - ballRadiusI,
      y := yAtHit, t0 := tHit, leftY := lI, rightY := rI }
    if hit then
      let contactY := if movingLeft then lI else rI
      let limit := halfI2 + ballRadiusI
      let offset := iMax (0 - limit) (iMin limit (st2.y - contactY))
      let norm := iDiv offset limit
      let angleI := iMax (0 - maxBounceAngleI) (iMin maxBounceAngleI (iMul norm maxBounceAngleI))
      let newSpeed := st2.speed + speedIncrementI
      let newDir : Int := if st2.dir < 0 then 1 else -1
      let sc := cordicSinCos angleI
      replayGo gameId { st2 with vx := iMul newSpeed (iMul sc.cos (toFixedInt newDir)),
                                 vy := iMul newSpeed sc.sin, speed := newSpeed, dir := newDir }
        lS rS (eventIdx + 1) pe2 rest
    else
      let lS2 := if movingLeft then lS else lS + 1
      let rS2 := if movingLeft then rS + 1 else rS
      if lS2 ≥ POINTS_TO_WIN ∨ rS2 ≥ POINTS_TO_WIN then .ok (finalCheck lS2 rS2)
      else
        let receiverDir : Int := if movingLeft then 1 else -1
        let next := serveValidator gameId receiverDir st2.t0 (pe2 : Int)
        replayGo gameId { next with leftY := st2.leftY, rightY := st2.rightY }
          lS2 rS2 (eventIdx + 1) pe2 rest

/-- Interleave the flat parsed entries into (leftY, rightY) pairs. -/
def mkPairs : List Int → List (Int × Int)
  | a :: b :: t => (a, b) :: mkPairs t
  | _ => []

/-- Positional lookup (the array indexing log.events[idx] of the source),
written structurally so it reduces definitionally. -/
def nth? {α : Type} : List α → Nat → Option α
  | [], _ => none
  | a :: _, 0 => some a
  | _ :: t, n + 1 => nth? t n

/-- The pre-flight checks of validateLog before seed decoding (engine.ts
lines 786-799): version, u32 game_id, present (non-empty) seed strings,
commitment count equal to event count. -/
def preflight0 (log : CompactLog) : Option ValidateResult :=
  if log.v ≠ 1 then some ⟨false, some "Invalid log format", 0, 0⟩
  else if log.game_id < 0 ∨ log.game_id > 4294967295 then
    some ⟨false, some "Invalid game_id format (must be u32)", 0, 0⟩
  else if log.player_left_seed = "" ∨ log.player_right_seed = "" then
    some ⟨false, some "Missing commitment data (commitments, player_left_seed, or player_right_seed)", 0, 0⟩
  else if log.commitments.length ≠ log.events.length then
    some ⟨false, some "Commitment count must match event count", 0, 0⟩
  else none

/-- The seed checks of validateLog on the decoded seed bytes (engine.ts
lines 807-822): 32-byte length, distinctness, at most 28 zero bytes. -/
def seedChecks (ls rs : List Nat) : Option ValidateResult :=
  if ls.length ≠ 32 ∨ rs.length ≠ 32 then
    some ⟨false, some "Invalid seed length (must be 32 bytes)", 0, 0⟩
  else if ls = rs then some ⟨false, some "Players must use unique commitment seeds", 0, 0⟩
  else if (ls.filter (fun b => b = 0)).length > 28 ∨ (rs.filter (fun b => b = 0)).length > 28 then
    some ⟨false, some "Commitment seed has insufficient entropy", 0, 0⟩
  else none

/-- The commitment verification loop of validateLog (engine.ts lines
825-840): for each index the expected commitment uses the left seed on
even indices and the right seed on odd ones; the first mismatch rejects
with the index in the reason; a BigInt parse failure throws.  On success
the parsed event values are returned for the replay. -/
def commitLoop (ls rs : List Nat) :
    List String → List String → Nat → Except String (Sum ValidateResult (List Int))
  | [], _, _ => .ok (.inr [])
  | e :: es, cs, idx =>
    match parseBigInt? e with
    | none => .error "Cannot convert string to a BigInt"
    | some y =>
      let expected := computeCommitment (if idx % 2 = 0 then ls else rs) idx y
      if cs.headD "" ≠ expected then
        .ok (.inl ⟨false, some ("Commitment verification failed at index " ++ toString idx), 0, 0⟩)
      else
        match commitLoop ls rs es cs.tail (idx + 1) with
        | .error m => .error m
        | .ok (.inl r) => .ok (.inl r)
        | .ok (.inr l) => .ok (.inr (y :: l))

/-- validateLog of engine.ts as staged in the source: pre-flight checks,
seed decoding and checks, commitment verification, the empty and odd
event count checks, then the replay from the initial serve (k = 0,
dir = INITIAL_SERVE_DIRECTION, t = 0).  Except.error models a thrown
JavaScript exception. -/
def validateLogE (log : CompactLog) : Except String ValidateResult :=
  match preflight0 log with
  | some r => .ok r
  | none =>
  match hexToBytes log.player_left_seed with
  | .error m => .error m
  | .ok ls =>
  match hexToBytes log.player_right_seed with
  | .error m => .error m
  | .ok rs =>
  match seedChecks ls rs with
  | some r => .ok r
  | none =>
  match commitLoop ls rs log.events log.commitments 0 with
  | .error m => .error m
  | .ok (.inl r) => .ok r
  | .ok (.inr parsed) =>
    if log.events.length = 0 then
      .ok ⟨false, some "No events provided - game never started", 0, 0⟩
    else if log.events.length % 2 ≠ 0 then
      .ok ⟨false, some "Malformed events length", 0, 0⟩
    else
      replayGo log.game_id (serveValidator log.game_id INITIAL_SERVE_DIRECTION 0 0) 0 0 0 0
        (mkPairs parsed)

/-- validateLog of engine.ts: the try/catch wrapper; any thrown exception
becomes the Validation-error result. -/
def validateLog (log : CompactLog) : ValidateResult :=
  match validateLogE log with
  | .ok r => r
  | .error _ => ⟨false, some "Validation error", 0, 0⟩

/-! Section 6: concrete logs used by witnesses and counterexamples. -/

/-- The S1 empty log of the spec: version 1, game 0, no events, the
all-zero left seed and the all-ff right seed. -/
def s1log : CompactLog :=
  { v := 1, game_id := 0, events := [], commitments := [],
    player_left_seed := "0000000000000000000000000000000000000000000000000000000000000000",
    player_right_seed := "ffffffffffffffffffffffffffffffffffffffffffffffffffffffffffffffff" }

/-- The S1 empty log with well-entropied distinct seeds. -/
def s1logGoodSeeds : CompactLog :=
  { v := 1, game_id := 0, events := [], commitments := [],
    player_left_seed := "0101010101010101010101010101010101010101010101010101010101010101",
    player_right_seed := "0202020202020202020202020202020202020202020202020202020202020202" }

/-- Byte form of the 01-repeated seed. -/
def seedABytes : List Nat := List.replicate 32 1

/-- Byte form of the 02-repeated seed. -/
def seedBBytes : List Nat := List.replicate 32 2

/-- An oversize log: 10002 event entries (5001 pairs), matching commitment
count, valid distinct seeds, all-zero commitment strings. -/
def bigLog : CompactLog :=
  { v := 1, game_id := 0,
    events := "15728640" :: List.replicate 10001 "15728640",
    commitments := "0000000000000000000000000000000000000000000000000000000000000000" ::
      List.replicate 10001
        "0000000000000000000000000000000000000000000000000000000000000000",
    player_left_seed := "0101010101010101010101010101010101010101010101010101010101010101",
    player_right_seed := "0202020202020202020202020202020202020202020202020202020202020202" }

/-- A complete fair game: five alternating misses ending 3-2, game 0,
with the genuine SHA-256 commitments of every entry under the two seeds
above.  All values are Q16.16 decimal strings. -/
def goodLog : CompactLog :=
  { v := 1, game_id := 0,
    events := ["23110740", "23110740", "18356997", "18356997", "18356997",
               "18356997", "22206502", "22206502", "16594166", "16594166"],
    commitments :=
      ["e851ca07a13f793de5ec133d6450b1f75e5d08b88a2d1976ab4fe09899724015",
       "8ef0e6db6b535cfd6b27b4c4c58c70c8054bffc23ce21155d23225d9421072e9",
       "b7dc6ff4697079b1a0f5c707f4bb8d78c4870e3d039ed194d1d563cef7d397d0",
       "ab48f653be47b662e9a420118e7ab3afde7e7cc36a7b46e783e6dc73157028f7",
       "db45b62589aba0d59bdb53cc4b644961b06fac2af4a42c4de50017f4835f3c04",
       "8e40551f14025e51fe56612c3c7f5f83428b114c6bb53a3e09f862149c80b656",
       "eeb28a4f7f80157947bd618b7e9ce42413158b43b4e7bb8c67d05c6e9bca575d",
       "1e9bc669c1ed8bae1d3e9be1bd599400033f9d15b003526160768486f8195675",
       "c1a4f6c7d64704d56be8c1a81160ef17076be8b2e854cabea36dffcfd792004d",
       "cba924dde15405f3e62c91e5e208fb1ee7a8d320fdb10ff3526a9b618cfb56bd"],
    player_left_seed := "0101010101010101010101010101010101010101010101010101010101010101",
    player_right_seed := "0202020202020202020202020202020202020202020202020202020202020202" }

/-- A log whose left seed is not valid hex, so hexToBytes throws. -/
def badHexLog : CompactLog :=
  { v := 1, game_id := 0, events := [], commitments := [],
    player_left_seed := "zz",
    player_right_seed := "0202020202020202020202020202020202020202020202020202020202020202" }

/-- The goodLog with the commitment at index 5 replaced by an all-zero
string (the S7 tampering scenario). -/
def tamperedLog : CompactLog :=
  { goodLog with commitments :=
      ["e851ca07a13f793de5ec133d6450b1f75e5d08b88a2d1976ab4fe09899724015",
       "8ef0e6db6b535cfd6b27b4c4c58c70c8054bffc23ce21155d23225d9421072e9",
       "b7dc6ff4697079b1a0f5c707f4bb8d78c4870e3d039ed194d1d563cef7d397d0",
       "ab48f653be47b662e9a420118e7ab3afde7e7cc36a7b46e783e6dc73157028f7",
       "db45b62589aba0d59bdb53cc4b644961b06fac2af4a42c4de50017f4835f3c04",
       "0000000000000000000000000000000000000000000000000000000000000000",
       "eeb28a4f7f80157947bd618b7e9ce42413158b43b4e7bb8c67d05c6e9bca575d",
       "1e9bc669c1ed8bae1d3e9be1bd599400033f9d15b003526160768486f8195675",
       "c1a4f6c7d64704d56be8c1a81160ef17076be8b2e854cabea36dffcfd792004d",
       "cba924dde15405f3e62c91e5e208fb1ee7a8d320fdb10ff3526a9b618cfb56bd"] }

/-- Leading-segment match test on character lists. -/
def listHasPre : List Char → List Char → Bool
  | [], _ => true
  | _ :: _, [] => false
  | a :: as, b :: bs => a == b && listHasPre as bs

/-- Substring occurrence test on character lists. -/
def listHasSub (needle : List Char) : List Char → Bool
  | [] => listHasPre needle []
  | b :: bs => listHasPre needle (b :: bs) || listHasSub needle bs

/-- Substring containment on strings (the reason-contains checks of the
spec scenarios). -/
def strContains (hay needle : String) : Bool := listHasSub needle.data hay.data

end Pong

namespace Pong

/-! Section 7: arithmetic facts about the JS modulo idiom. -/

/-- Truncated remainder negates with the dividend. -/
theorem tmod_neg_dividend (a b : Int) : (-a).tmod b = -(a.tmod b) := by
  simp [Int.tmod_def, Int.neg_tdiv]; ring

/-- Truncated remainder by a positive modulus exceeds its negation. -/
theorem tmod_gt_neg (a : Int) {p : Int} (hp : 0 < p) : -p < a.tmod p := by
  rcases le_or_lt 0 a with h | h
  · have := Int.tmod_nonneg p h
    omega
  · have h1 : a = -(-a) := by ring
    rw [h1, tmod_neg_dividend]
    have := Int.tmod_lt_of_pos (-a) hp
    omega

/-- Truncated remainder is congruent to the dividend. -/
theorem tmod_emod (a p : Int) : (a.tmod p) % p = a % p := by
  rw [Int.tmod_def]
  have h : a - p * a.tdiv p = a + p * (-(a.tdiv p)) := by ring
  rw [h, Int.add_mul_emod_self_left]

/-- The double truncated-% of reflect1D computes the Euclidean modulo for
a positive period, exactly as the spec's rem_euclid demands. -/
theorem jsEmod_eq_emod (y p : Int) (hp : 0 < p) : jsEmod y p = y % p := by
  unfold jsEmod
  have h1 : 0 ≤ y.tmod p + p := by have := tmod_gt_neg y hp; omega
  rw [Int.tmod_eq_emod h1 hp.le]
  have h3 : (y.tmod p + p) % p = (y.tmod p) % p := by
    have h : y.tmod p + p = y.tmod p + p * 1 := by ring
    rw [h, Int.add_mul_emod_self_left]
  rw [h3, tmod_emod]

/-- The corrected modulo is a non-negative remainder. -/
theorem jsEmod_bounds (y p : Int) (hp : 0 < p) : 0 ≤ jsEmod y p ∧ jsEmod y p < p := by
  rw [jsEmod_eq_emod y p hp]
  exact ⟨Int.emod_nonneg y hp.ne', Int.emod_lt_of_pos y hp⟩

/-- C10: for positive span the reflected position stays inside the wall
bounds [minY, maxY] for every start, velocity and elapsed time; for a
non-positive span reflect1D returns y0 unchanged. -/
theorem C10_reflect1D_stays_in_bounds (y0 vy dt minY maxY : Int) :
    (0 < maxY - minY →
      minY ≤ reflect1D y0 vy dt minY maxY ∧ reflect1D y0 vy dt minY maxY ≤ maxY) ∧
    (maxY - minY ≤ 0 → reflect1D y0 vy dt minY maxY = y0) := by
  constructor
  · intro hspan
    have hp : 0 < (maxY - minY) * 2 := by omega
    have hb := jsEmod_bounds (y0 + iMul vy dt - minY) ((maxY - minY) * 2) hp
    simp only [reflect1D]
    rw [if_neg (by omega)]
    split <;> omega
  · intro hspan
    simp only [reflect1D]
    rw [if_pos hspan]

/-- C10 witness: concrete instances discharging both hypotheses. -/
theorem C10_reflect1D_stays_in_bounds_witness :
    (0 ≤ reflect1D (toFixedInt 100) (toFixedInt 50) (toFixedInt 2) 0 (toFixedInt 480) ∧
      reflect1D (toFixedInt 100) (toFixedInt 50) (toFixedInt 2) 0 (toFixedInt 480) ≤ toFixedInt 480) ∧
    reflect1D (toFixedInt 7) (toFixedInt 50) (toFixedInt 2) (toFixedInt 9) (toFixedInt 9) = toFixedInt 7 :=
  ⟨(C10_reflect1D_stays_in_bounds (toFixedInt 100) (toFixedInt 50) (toFixedInt 2) 0
      (toFixedInt 480)).1 (by decide),
   (C10_reflect1D_stays_in_bounds (toFixedInt 7) (toFixedInt 50) (toFixedInt 2) (toFixedInt 9)
      (toFixedInt 9)).2 (by decide)⟩

/-- C5: the three closed-form reflection cases of scenario S4, in Q16.16,
and the equivalence of the source's double-truncated-% period computation
with the spec's Euclidean-modulo formulation. -/
theorem C5_reflect1D_cases :
    reflect1D (toFixedInt 100) (toFixedInt 50) (toFixedInt 2) 0 (toFixedInt 480) = toFixedInt 200 ∧
    reflect1D (toFixedInt 10) (toFixedInt (-50)) (toFixedInt 1) 0 (toFixedInt 480) = toFixedInt 40 ∧
    reflect1D (toFixedInt 470) (toFixedInt 50) (toFixedInt 1) 0 (toFixedInt 480) = toFixedInt 440 ∧
    (∀ y0 vy dt minY maxY : Int, reflect1D y0 vy dt minY maxY = reflect1DSpec y0 vy dt minY maxY) := by
  refine ⟨by decide, by decide, by decide, ?_⟩
  intro y0 vy dt minY maxY
  simp only [reflect1D, reflect1DSpec]
  split
  · rfl
  · rename_i h
    rw [jsEmod_eq_emod _ _ (by omega), mul_comm]
    rfl

/-! Section 8: the hit decision (C7) and CORDIC antisymmetry (C8). -/

/-- iAbs is the absolute value. -/
theorem iAbs_eq_abs (a : Int) : iAbs a = |a| := by
  unfold iAbs
  split
  · rw [abs_of_neg (by omega)]
  · rw [abs_of_nonneg (by omega)]

/-- C7: the hit decision of validateLog, computed by the source on
fromFixed doubles (modelled exactly over the rationals), coincides with
the pure Q16.16 integer comparison for all inputs, and the
toFixed-fromFixed round-trip the validator applies to event times is the
identity. -/
theorem C7_hit_decision_exact :
    (∀ loggedY yAtHit : Int, hitTestCode loggedY yAtHit = hitTestInt loggedY yAtHit) ∧
    (∀ x : Int, toFixedQ (fromFixedQ x) = x) := by
  constructor
  · intro a b
    unfold hitTestCode hitTestInt
    rw [decide_eq_decide, iAbs_eq_abs]
    rw [show fromFixedQ a - fromFixedQ b = ((a - b : Int) : Rat) / 65536 by
      unfold fromFixedQ; push_cast; ring]
    rw [abs_div, abs_of_pos (by norm_num : (0:Rat) < 65536)]
    rw [div_le_iff₀ (by norm_num : (0:Rat) < 65536)]
    rw [show ((40:Rat) + 6) * 65536 = ((((40 + 6) * 65536 : Int) : Rat)) by norm_num]
    rw [← Int.cast_abs, Int.cast_le]
  · intro x
    unfold toFixedQ fromFixedQ
    rw [div_mul_cancel₀ _ (by norm_num : (65536:Rat) ≠ 0)]
    exact round_intCast x

/-- C8 counterexample: at angle 0.01744 rad (1 degree, Q16.16 value 1143,
well inside the 8-pi contract range) the 8-iteration CORDIC violates
sin(-x) = -sin(x) exactly. -/
theorem C8_sin_neg_counterexample :
    iAbs 1143 ≤ 8 * PI_Q16 ∧ (cordicSinCos (-1143)).sin ≠ -((cordicSinCos 1143).sin) := by
  constructor
  · decide
  · decide

/-- C8 amended: on the degree angles the engine feeds to CORDIC the
antisymmetry holds within 922 Q16.16 units (about 0.014, twice the
residual sin 0 = 461 of the 8-iteration CORDIC), matching the repository
conformance test that checks the identity only up to tolerance. -/
theorem C8_sin_neg_within_tolerance (d : Nat) (hd : d ≤ 60) :
    iAbs ((cordicSinCos (-(degToRadFixed d))).sin + (cordicSinCos (degToRadFixed d)).sin) ≤ 922 := by
  revert d
  decide

/-- C8 witness at 30 degrees. -/
theorem C8_sin_neg_within_tolerance_witness :
    iAbs ((cordicSinCos (-(degToRadFixed 30))).sin + (cordicSinCos (degToRadFixed 30)).sin) ≤ 922 :=
  C8_sin_neg_within_tolerance 30 (by decide)

end Pong

namespace Pong

/-! Section 9: commitment verification (C4) and the capacity question (C2). -/

deriving instance DecidableEq for Except

/-- Commitment loop inversion: when the first i entries parse and carry
their expected commitments and entry i parses but its commitment differs
from the recomputation, the loop stops at i with the index in the reason. -/
theorem commitLoop_first_mismatch (ls rs : List Nat) :
    ∀ (i : Nat) (es cs : List String) (idx : Nat) (e c : String) (y : Int),
    (∀ j, j < i → ∃ ej yj, nth? es j = some ej ∧ parseBigInt? ej = some yj ∧
        nth? cs j = some (computeCommitment (if (idx + j) % 2 = 0 then ls else rs) (idx + j) yj)) →
    nth? es i = some e →
    parseBigInt? e = some y →
    nth? cs i = some c →
    c ≠ computeCommitment (if (idx + i) % 2 = 0 then ls else rs) (idx + i) y →
    commitLoop ls rs es cs idx =
      .ok (.inl ⟨false, some ("Commitment verification failed at index " ++ toString (idx + i)), 0, 0⟩) := by
  intro i
  induction i with
  | zero =>
    intro es cs idx e c y _ he hy hc hne
    cases es with
    | nil => simp [nth?] at he
    | cons e0 es' =>
      cases cs with
      | nil => simp [nth?] at hc
      | cons c0 cs' =>
        simp only [nth?, Option.some.injEq] at he hc
        subst he hc
        rw [Nat.add_zero] at hne ⊢
        simp only [commitLoop, hy, List.headD_cons]
        rw [if_pos hne]
  | succ i ih =>
    intro es cs idx e c y hpre he hy hc hne
    obtain ⟨e0, y0, he0, hy0, hc0⟩ := hpre 0 (Nat.succ_pos i)
    cases es with
    | nil => simp [nth?] at he0
    | cons a as =>
      cases cs with
      | nil => simp [nth?] at hc0
      | cons b bs =>
        simp only [nth?, Option.some.injEq] at he0 hc0
        subst he0
        rw [Nat.add_zero] at hc0
        simp only [nth?] at he hc
        have hrec := ih as bs (idx + 1) e c y
          (fun j hj => by
            obtain ⟨ej, yj, h1, h2, h3⟩ := hpre (j + 1) (by omega)
            refine ⟨ej, yj, ?_, h2, ?_⟩
            · simpa [nth?] using h1
            · rw [show idx + 1 + j = idx + (j + 1) by omega]
              simpa [nth?] using h3)
          he hy hc
          (by rw [show idx + 1 + i = idx + (i + 1) by omega]; exact hne)
        simp only [commitLoop, hy0, List.headD_cons, List.tail_cons]
        rw [if_neg (by simp [hc0]), hrec]
        rw [show idx + 1 + i = idx + (i + 1) by omega]

/-- Staging fact: when the pre-flight checks pass, the seeds decode and
pass their checks, and the commitment loop rejects, validateLog returns
that rejection. -/
theorem validateLog_commit_reject (log : CompactLog) (ls rs : List Nat) (r : ValidateResult)
    (hpf : preflight0 log = none)
    (hls : hexToBytes log.player_left_seed = .ok ls)
    (hrs : hexToBytes log.player_right_seed = .ok rs)
    (hsc : seedChecks ls rs = none)
    (hcl : commitLoop ls rs log.events log.commitments 0 = .ok (.inl r)) :
    validateLog log = r := by
  simp only [validateLog, validateLogE, hpf, hls, hrs, hsc, hcl]

/-- C4: with the pre-flight and seed stages passed, if the first i event
entries carry exactly the recomputed commitments (left seed on even
indices, right on odd) and the commitment at index i differs from the
SHA-256 recomputation over seed || LE32(i) || LE64(paddleY), then
validateLog rejects naming index i. -/
theorem C4_commitment_mismatch_rejected (log : CompactLog) (ls rs : List Nat) (i : Nat)
    (e c : String) (y : Int)
    (hpf : preflight0 log = none)
    (hls : hexToBytes log.player_left_seed = .ok ls)
    (hrs : hexToBytes log.player_right_seed = .ok rs)
    (hsc : seedChecks ls rs = none)
    (hpre : ∀ j, j < i → ∃ ej yj, nth? log.events j = some ej ∧ parseBigInt? ej = some yj ∧
        nth? log.commitments j = some (computeCommitment (if j % 2 = 0 then ls else rs) j yj))
    (he : nth? log.events i = some e)
    (hy : parseBigInt? e = some y)
    (hc : nth? log.commitments i = some c)
    (hne : c ≠ computeCommitment (if i % 2 = 0 then ls else rs) i y) :
    validateLog log =
      ⟨false, some ("Commitment verification failed at index " ++ toString i), 0, 0⟩ := by
  have hcl := commitLoop_first_mismatch ls rs i log.events log.commitments 0 e c y
    (by simpa using hpre) he hy hc (by simpa using hne)
  rw [Nat.zero_add] at hcl
  exact validateLog_commit_reject log ls rs _ hpf hls hrs hsc hcl

/-- Pre-flight passes on the oversize log. -/
theorem preflight0_bigLog : preflight0 bigLog = none := by
  have h4 : ¬ (bigLog.commitments.length ≠ bigLog.events.length) := by
    simp only [bigLog, List.length_cons, List.length_replicate]
    omega
  simp only [preflight0]
  rw [if_neg (by decide), if_neg (by decide), if_neg (by decide), if_neg h4]

/-- C2 counterexample: a log with 10002 event entries passes every
pre-flight check of validateLog; no events.length <= MAX_EVENTS check
exists in the validator. -/
theorem C2_no_capacity_check_counterexample :
    bigLog.events.length > MAX_EVENTS ∧
    preflight0 bigLog = none ∧
    hexToBytes bigLog.player_left_seed = .ok seedABytes ∧
    hexToBytes bigLog.player_right_seed = .ok seedBBytes ∧
    seedChecks seedABytes seedBBytes = none := by
  refine ⟨?_, preflight0_bigLog, by decide, by decide, by decide⟩
  simp only [bigLog, List.length_cons, List.length_replicate, MAX_EVENTS]
  omega

set_option maxRecDepth 4000 in
/-- C2 amended: the oversize log is not rejected for capacity; validation
proceeds into commitment verification and fails there (at index 0, since
its commitment strings are not the recomputed digests). -/
theorem C2_oversize_log_reaches_commitment_stage :
    validateLog bigLog = ⟨false, some "Commitment verification failed at index 0", 0, 0⟩ := by
  have hcl := commitLoop_first_mismatch seedABytes seedBBytes 0 bigLog.events bigLog.commitments 0
    "15728640"
    "0000000000000000000000000000000000000000000000000000000000000000"
    15728640
    (by intro j hj; omega)
    (by rfl)
    (by decide)
    (by rfl)
    (by decide)
  exact validateLog_commit_reject bigLog seedABytes seedBBytes _ preflight0_bigLog
    (by decide) (by decide) (by decide) hcl

/-! Section 10: the empty log (C3). -/

/-- C3 counterexample: on the spec's S1 empty log (all-zero left seed)
validateLog rejects for seed entropy, and that reason does not contain
the words the spec requires. -/
theorem C3_empty_log_counterexample :
    (validateLog s1log).fair = false ∧
    (validateLog s1log).reason = some "Commitment seed has insufficient entropy" ∧
    strContains "Commitment seed has insufficient entropy" "No events provided" = false := by
  refine ⟨by decide, by decide, by decide⟩

/-- C3 amended: the same empty log with seeds that pass the entropy guard
is rejected with the No-events-provided reason. -/
theorem C3_empty_log_good_seeds :
    validateLog s1logGoodSeeds = ⟨false, some "No events provided - game never started", 0, 0⟩ ∧
    strContains "No events provided - game never started" "No events provided" = true := by
  refine ⟨by decide, by decide⟩

end Pong

namespace Pong

/-! Section 11: shape of every validator result (C1, C9). -/

/-- The fair-score shape: exactly one score equals POINTS_TO_WIN and the
other is strictly below it. -/
def scoreShape (r : ValidateResult) : Prop :=
  (r.leftScore = POINTS_TO_WIN ∧ r.rightScore < POINTS_TO_WIN) ∨
  (r.rightScore = POINTS_TO_WIN ∧ r.leftScore < POINTS_TO_WIN)

/-- Well-formedness of a validator result: a fair result has the winning
score shape, an unfair result carries a reason string. -/
def resultWF (r : ValidateResult) : Prop :=
  (r.fair = true → scoreShape r) ∧ (r.fair = false → r.reason.isSome = true)

/-- The final score checks produce only well-formed results. -/
theorem finalCheck_wf (l s : Nat) : resultWF (finalCheck l s) := by
  unfold finalCheck
  split_ifs with h1 h2 h3
  · exact ⟨by simp, by simp⟩
  · exact ⟨by simp, by simp⟩
  · exact ⟨by simp, by simp⟩
  · refine ⟨fun _ => ?_, by simp⟩
    simp only [scoreShape, POINTS_TO_WIN] at *
    omega

/-- A rejection record is well-formed. -/
theorem reject_wf (s : String) (a b : Nat) : resultWF ⟨false, some s, a, b⟩ :=
  ⟨fun h => by simp at h, fun _ => rfl⟩

/-- The replay loop produces only well-formed results. -/
theorem replayGo_ok_wf (gameId : Int) :
    ∀ (pairs : List (Int × Int)) (st : FixState) (lS rS eventIdx pe : Nat) (r : ValidateResult),
    replayGo gameId st lS rS eventIdx pe pairs = .ok r → resultWF r := by
  intro pairs
  induction pairs with
  | nil =>
    intro st lS rS eventIdx pe r h
    simp only [replayGo, Except.ok.injEq] at h
    subst h
    exact finalCheck_wf _ _
  | cons p rest ih =>
    obtain ⟨lI, rI⟩ := p
    intro st lS rS eventIdx pe r h
    simp only [replayGo] at h
    repeat' split at h
    all_goals
      first
      | exact Except.noConfusion h
      | exact ih _ _ _ _ _ _ h
      | (simp only [Except.ok.injEq] at h
         subst h
         first
         | exact finalCheck_wf _ _
         | exact reject_wf _ _ _)

/-- The pre-flight stage produces only well-formed rejections. -/
theorem preflight0_wf (log : CompactLog) (r : ValidateResult)
    (h : preflight0 log = some r) : resultWF r := by
  unfold preflight0 at h
  split_ifs at h <;> simp only [Option.some.injEq] at h <;> subst h <;> exact ⟨by simp, by simp⟩

/-- The seed checks produce only well-formed rejections. -/
theorem seedChecks_wf (ls rs : List Nat) (r : ValidateResult)
    (h : seedChecks ls rs = some r) : resultWF r := by
  unfold seedChecks at h
  split_ifs at h <;> simp only [Option.some.injEq] at h <;> subst h <;> exact ⟨by simp, by simp⟩

/-- The commitment loop produces only well-formed rejections. -/
theorem commitLoop_inl_wf (ls rs : List Nat) :
    ∀ (es cs : List String) (idx : Nat) (r : ValidateResult),
    commitLoop ls rs es cs idx = .ok (.inl r) → resultWF r := by
  intro es
  induction es with
  | nil =>
    intro cs idx r h
    simp [commitLoop] at h
  | cons e es' ih =>
    intro cs idx r h
    simp only [commitLoop] at h
    repeat' split at h
    all_goals
      first
      | exact Except.noConfusion h
      | exact Sum.noConfusion (Except.ok.inj h)
      | (rename_i heq
         simp only [Except.ok.injEq, Sum.inl.injEq] at h
         subst h
         exact ih _ _ _ heq)
      | (simp only [Except.ok.injEq, Sum.inl.injEq] at h
         subst h
         exact reject_wf _ _ _)

/-- Every successful validateLogE outcome is well-formed. -/
theorem validateLogE_ok_wf (log : CompactLog) (r : ValidateResult)
    (h : validateLogE log = .ok r) : resultWF r := by
  unfold validateLogE at h
  split at h
  · rename_i heq
    simp only [Except.ok.injEq] at h
    subst h
    exact preflight0_wf _ _ heq
  split at h
  · exact Except.noConfusion h
  split at h
  · exact Except.noConfusion h
  split at h
  · rename_i heq
    simp only [Except.ok.injEq] at h
    subst h
    exact seedChecks_wf _ _ _ heq
  split at h
  · exact Except.noConfusion h
  · rename_i heq
    simp only [Except.ok.injEq] at h
    subst h
    exact commitLoop_inl_wf _ _ _ _ _ _ heq
  · split at h
    · simp only [Except.ok.injEq] at h
      subst h
      exact reject_wf _ _ _
    · split at h
      · simp only [Except.ok.injEq] at h
        subst h
        exact reject_wf _ _ _
      · exact replayGo_ok_wf _ _ _ _ _ _ _ _ h

/-- Every validateLog result is well-formed. -/
theorem validateLog_wf (log : CompactLog) : resultWF (validateLog log) := by
  unfold validateLog
  split
  · rename_i r heq
    exact validateLogE_ok_wf _ _ heq
  · exact reject_wf _ _ _

/-- C1: whenever validateLog reports fair, exactly one of the two scores
equals POINTS_TO_WIN and the other is strictly smaller. -/
theorem C1_fair_scores (log : CompactLog) (h : (validateLog log).fair = true) :
    ((validateLog log).leftScore = POINTS_TO_WIN ∧ (validateLog log).rightScore < POINTS_TO_WIN) ∨
    ((validateLog log).rightScore = POINTS_TO_WIN ∧ (validateLog log).leftScore < POINTS_TO_WIN) :=
  (validateLog_wf log).1 h

/-- C9: validateLog never throws; every unfair outcome carries a reason
string (thrown exceptions are caught and become the Validation-error
result). -/
theorem C9_unfair_has_reason (log : CompactLog) (h : (validateLog log).fair = false) :
    ((validateLog log).reason).isSome = true :=
  (validateLog_wf log).2 h

end Pong

namespace Pong

/-! Section 12: producer and validator serve-index agreement (C6). -/

/-- C6: the producer and validator serve functions are the same function;
after the initial serve (k = 0, dir = INITIAL_SERVE_DIRECTION on both
sides) the producer serves with k = log.events.length after appending the
event pair, the validator with processedEvents incremented by 2 per
event, and these agree at every event index (both equal 2 * (i + 1)), so
for the same game_id, direction and serve time the two sides derive
bit-identical serve states; even at different wall-clock serve times every
component except the timestamp t0 agrees. -/
theorem C6_serve_index_agreement :
    (∀ gameId receiverDir tStartQ volley : Int,
      serveFixed gameId receiverDir tStartQ volley = serveValidator gameId receiverDir tStartQ volley) ∧
    (∀ i : Nat, producerEventsLenAfter (i + 1) = validatorProcessedEvents (i + 1) ∧
      producerEventsLenAfter (i + 1) = 2 * (i + 1)) ∧
    (∀ gameId tStartQ i,
      serveFixed gameId INITIAL_SERVE_DIRECTION tStartQ ((producerEventsLenAfter (i + 1) : Nat) : Int) =
      serveValidator gameId INITIAL_SERVE_DIRECTION tStartQ ((validatorProcessedEvents (i + 1) : Nat) : Int)) ∧
    (∀ gameId tStartQ : Int,
      serveFixed gameId INITIAL_SERVE_DIRECTION tStartQ 0 =
      serveValidator gameId INITIAL_SERVE_DIRECTION tStartQ 0) ∧
    (∀ gameId receiverDir t1 t2 volley : Int,
      (serveFixed gameId receiverDir t1 volley).vx = (serveValidator gameId receiverDir t2 volley).vx ∧
      (serveFixed gameId receiverDir t1 volley).vy = (serveValidator gameId receiverDir t2 volley).vy ∧
      (serveFixed gameId receiverDir t1 volley).speed = (serveValidator gameId receiverDir t2 volley).speed ∧
      (serveFixed gameId receiverDir t1 volley).dir = (serveValidator gameId receiverDir t2 volley).dir ∧
      (serveFixed gameId receiverDir t1 volley).x = (serveValidator gameId receiverDir t2 volley).x ∧
      (serveFixed gameId receiverDir t1 volley).y = (serveValidator gameId receiverDir t2 volley).y) := by
  have hlen : ∀ i : Nat, producerEventsLenAfter i = validatorProcessedEvents i ∧
      producerEventsLenAfter i = 2 * i := by
    intro i
    induction i with
    | zero => exact ⟨rfl, rfl⟩
    | succ i ih =>
      simp only [producerEventsLenAfter, validatorProcessedEvents]
      omega
  refine ⟨fun _ _ _ _ => rfl, fun i => hlen (i + 1), fun gameId tStartQ i => ?_,
    fun _ _ => rfl, fun _ _ _ _ _ => ⟨rfl, rfl, rfl, rfl, rfl, rfl⟩⟩
  rw [(hlen (i + 1)).1]
  rfl

end Pong

namespace Pong

set_option maxRecDepth 8000 in
/-- C1 witness: the concrete five-miss 3-2 game is validated fair and its
scores have the winning shape. -/
theorem C1_fair_scores_witness :
    (validateLog goodLog).fair = true ∧
    (((validateLog goodLog).leftScore = POINTS_TO_WIN ∧
        (validateLog goodLog).rightScore < POINTS_TO_WIN) ∨
      ((validateLog goodLog).rightScore = POINTS_TO_WIN ∧
        (validateLog goodLog).leftScore < POINTS_TO_WIN)) :=
  ⟨by decide, C1_fair_scores goodLog (by decide)⟩

set_option maxRecDepth 8000 in
/-- C9 witness: a log whose left seed is not hex makes hexToBytes throw;
the exception is caught and reported with a reason. -/
theorem C9_unfair_has_reason_witness :
    (validateLog badHexLog).fair = false ∧
    ((validateLog badHexLog).reason).isSome = true :=
  ⟨by decide, C9_unfair_has_reason badHexLog (by decide)⟩

end Pong

namespace Pong

set_option maxRecDepth 8000 in
/-- C4 witness: tampering with the commitment at index 5 of the fair game
log is rejected with the index named in the reason (scenario S7). -/
theorem C4_commitment_mismatch_rejected_witness :
    validateLog tamperedLog =
      ⟨false, some ("Commitment verification failed at index " ++ toString 5), 0, 0⟩ :=
  C4_commitment_mismatch_rejected tamperedLog seedABytes seedBBytes 5
    "18356997" "0000000000000000000000000000000000000000000000000000000000000000" 18356997
    (by decide) (by decide) (by decide) (by decide)
    (fun j hj => by
      interval_cases j
      · exact ⟨"23110740", 23110740, rfl, by decide, by decide⟩
      · exact ⟨"23110740", 23110740, rfl, by decide, by decide⟩
      · exact ⟨"18356997", 18356997, rfl, by decide, by decide⟩
      · exact ⟨"18356997", 18356997, rfl, by decide, by decide⟩
      · exact ⟨"18356997", 18356997, rfl, by decide, by decide⟩)
    rfl (by decide) rfl (by decide)

end Pong
